import Mathlib

/-!
# Constant table of `web/src/constants/common.constant.js`

The module exports six `const` bindings: a number, four strings and one array
literal of twelve strings.  The first part of this file transcribes the
literals.  The second part places the six declarations in the host language's
setting (bindings, a heap with the array object, the module registry), so that
statements about loading and about mutation by importing code can be phrased.
-/

namespace CommonConstant

/-! ## The exported literals -/

/-- Line 1: `export const ITEMS_PER_PAGE = 10;`.  The literal is an integer
numeral, so the value lives in `Int`. -/
def ITEMS_PER_PAGE : Int := 10

/-- Line 3: `export const DEFAULT_ENDPOINT = '/api/ratio_config';` -/
def DEFAULT_ENDPOINT : String := "/api/ratio_config"

/-- Line 5: `export const TABLE_COMPACT_MODES_KEY = 'table_compact_modes';` -/
def TABLE_COMPACT_MODES_KEY : String := "table_compact_modes"

/-- Lines 7-20: the array literal bound to `API_ENDPOINTS`, element by element
in source order. -/
def API_ENDPOINTS : List String :=
  [ "/v1/chat/completions"
  , "/v1/responses"
  , "/v1/messages"
  , "/v1beta/models"
  , "/v1/embeddings"
  , "/v1/rerank"
  , "/v1/images/generations"
  , "/v1/images/edits"
  , "/v1/images/variations"
  , "/v1/audio/speech"
  , "/v1/audio/transcriptions"
  , "/v1/audio/translations" ]

/-- Line 22: `export const TASK_ACTION_GENERATE = 'generate';` -/
def TASK_ACTION_GENERATE : String := "generate"

/-- Line 23: `export const TASK_ACTION_TEXT_GENERATE = 'textGenerate';` -/
def TASK_ACTION_TEXT_GENERATE : String := "textGenerate"

/-! ## Predicates on route strings -/

/-- White space in the sense of the ECMAScript grammar (`WhiteSpace` and
`LineTerminator` code points). -/
def isJsWhiteSpace (c : Char) : Bool :=
  let n := c.toNat
  n == 0x09 || n == 0x0A || n == 0x0B || n == 0x0C || n == 0x0D || n == 0x20 ||
  n == 0xA0 || n == 0x1680 || (0x2000 ≤ n && n ≤ 0x200A) || n == 0x2028 ||
  n == 0x2029 || n == 0x202F || n == 0x205F || n == 0x3000 || n == 0xFEFF

/-- The behaviour of `String.prototype.startsWith` on code-point lists. -/
def startsWith : List Char → List Char → Bool
  | _, [] => true
  | [], _ :: _ => false
  | c :: cs, p :: ps => c == p && startsWith cs ps

/-- The behaviour of `String.prototype.endsWith` for a one-character suffix. -/
def endsWithChar (s : List Char) (c : Char) : Bool :=
  s.getLast? == some c

/-- A well-formed versioned route path: non-empty, starts with `/v1`, has no
white space and does not end in a slash. -/
def wellFormedRoute (s : String) : Bool :=
  let cs := s.toList
  !cs.isEmpty && startsWith cs "/v1".toList && !cs.any isJsWhiteSpace &&
    !endsWithChar cs '/'


/-! ## The loaded module, and what importing code can do with it

The module body consists of six `export const` declarations and nothing else.
To speak about loading and about mutation the declarations are placed in the
setting the host language gives them: values, array objects on a heap, a
module instance holding the six bindings, and the module registry that hands
the one instance to every importer.  The behaviour of the host operations
follows ECMA-262 (ordinary `[[Set]]`, the array exotic object's
`[[DefineOwnProperty]]` and `ArraySetLength`, `Array.prototype.push` and
`pop`, `Object.freeze`, and the single evaluation of a module record).  The
spec names both situations: "a consumer mutating the exported sequence"
(section 7) and "re-importing the module" (section 8). -/

/-- The largest array length, `2^32 - 1`.  Array indices are the integers
below it. -/
def arrayIndexLimit : Nat := 2 ^ 32 - 1

/-- A Number whose value is an integer of magnitude at most `2^53`; these are
represented exactly and pairwise distinct as doubles. -/
structure SafeInteger where
  val : Int
  safe : val.natAbs ≤ 2 ^ 53
  deriving DecidableEq

/-- The values of the host language that are represented: `undefined`, the
safe integers among the Numbers, strings, and references to heap objects. -/
inductive JsValue where
  | undefined
  | num (n : SafeInteger)
  | str (s : String)
  | ref (addr : Nat)
  deriving DecidableEq

/-- An array object: its elements in index order (`none` is a hole) and
whether `Object.freeze` has been applied to it.  Properties that are not
elements are not recorded. -/
structure JsArray where
  elems : List (Option JsValue)
  frozen : Bool
  deriving DecidableEq

/-- The six names the module exports. -/
inductive ExportName where
  | ITEMS_PER_PAGE
  | DEFAULT_ENDPOINT
  | TABLE_COMPACT_MODES_KEY
  | API_ENDPOINTS
  | TASK_ACTION_GENERATE
  | TASK_ACTION_TEXT_GENERATE
  deriving DecidableEq

/-- A module instance: the value each exported binding holds, and the heap of
objects the instance has allocated. -/
structure ModuleInstance where
  ITEMS_PER_PAGE : JsValue
  DEFAULT_ENDPOINT : JsValue
  TABLE_COMPACT_MODES_KEY : JsValue
  API_ENDPOINTS : JsValue
  TASK_ACTION_GENERATE : JsValue
  TASK_ACTION_TEXT_GENERATE : JsValue
  heap : List JsArray
  deriving DecidableEq

/-- The value held by an exported binding. -/
def ModuleInstance.binding (m : ModuleInstance) : ExportName → JsValue
  | .ITEMS_PER_PAGE => m.ITEMS_PER_PAGE
  | .DEFAULT_ENDPOINT => m.DEFAULT_ENDPOINT
  | .TABLE_COMPACT_MODES_KEY => m.TABLE_COMPACT_MODES_KEY
  | .API_ENDPOINTS => m.API_ENDPOINTS
  | .TASK_ACTION_GENERATE => m.TASK_ACTION_GENERATE
  | .TASK_ACTION_TEXT_GENERATE => m.TASK_ACTION_TEXT_GENERATE

/-- Evaluation of the module body, lines 1-23, top to bottom.  Each
declaration is `export const NAME = literal`; no right-hand side mentions a
variable, so the body takes no input.  Lines 1, 3, 5, 22 and 23 bind
primitives.  Lines 7-20 evaluate an array literal, which allocates one array
object (heap address 0) with the twelve strings as elements, and bind
`API_ENDPOINTS` to a reference to it.  The source never applies
`Object.freeze` to that object, so it is allocated unfrozen and stays so
through the body. -/
def evalModuleBody : ModuleInstance where
  ITEMS_PER_PAGE := .num ⟨ITEMS_PER_PAGE, by decide⟩
  DEFAULT_ENDPOINT := .str DEFAULT_ENDPOINT
  TABLE_COMPACT_MODES_KEY := .str TABLE_COMPACT_MODES_KEY
  API_ENDPOINTS := .ref 0
  TASK_ACTION_GENERATE := .str TASK_ACTION_GENERATE
  TASK_ACTION_TEXT_GENERATE := .str TASK_ACTION_TEXT_GENERATE
  heap := [{ elems := API_ENDPOINTS.map (fun s => some (JsValue.str s)), frozen := false }]

/-- What reading an export gives: a primitive, or, through a reference, the
current elements of the array object referred to. -/
inductive Observed where
  | prim (v : JsValue)
  | array (elems : List (Option JsValue))
  | dangling
  deriving DecidableEq

/-- Reading an export of an instance, following a reference into the heap. -/
def ModuleInstance.read (m : ModuleInstance) (name : ExportName) : Observed :=
  match m.binding name with
  | .ref addr =>
    match m.heap[addr]? with
    | some a => .array a.elems
    | none => .dangling
  | v => .prim v

/-- The result of `Object.isFrozen` on an export: primitives count as
frozen. -/
def ModuleInstance.isFrozen (m : ModuleInstance) (name : ExportName) : Bool :=
  match m.binding name with
  | .ref addr =>
    match m.heap[addr]? with
    | some a => a.frozen
    | none => true
  | _ => true

/-- The exceptions that occur. -/
inductive JsError where
  | typeError
  | rangeError
  deriving DecidableEq

/-- A property write that the object refuses: strict code gets a `TypeError`,
sloppy code gets nothing. -/
def refusedWrite (strict : Bool) : Option JsError :=
  if strict then some JsError.typeError else none

/-- The element write `a[i] = v`.  A frozen array refuses it.  Otherwise an
index below the length replaces the element, an index from the length up to
`2^32 - 2` extends the array with holes up to it, and a larger number is not
an array index: the write creates a property that is not an element and the
length stays as it is. -/
def writeIndex (a : JsArray) (i : Nat) (v : JsValue) (strict : Bool) :
    JsArray × Option JsError :=
  if a.frozen then (a, refusedWrite strict)
  else if i < arrayIndexLimit then
    if i < a.elems.length then ({ a with elems := a.elems.set i (some v) }, none)
    else
      ({ a with elems := a.elems ++ List.replicate (i - a.elems.length) none ++ [some v] },
        none)
  else (a, none)

/-- The length write `a.length = n`.  A frozen array refuses it (its length is
not writable).  Otherwise a value above `2^32 - 1` raises `RangeError` and
changes nothing, a value up to the length truncates, and a larger one adds
holes. -/
def writeLength (a : JsArray) (n : Nat) (strict : Bool) : JsArray × Option JsError :=
  if a.frozen then (a, refusedWrite strict)
  else if arrayIndexLimit < n then (a, some JsError.rangeError)
  else if n ≤ a.elems.length then ({ a with elems := a.elems.take n }, none)
  else ({ a with elems := a.elems ++ List.replicate (n - a.elems.length) none }, none)

/-- The call `a.push(v)`.  On a frozen array it raises `TypeError`.  At the
largest length the new length is out of range and it raises `RangeError`,
the elements staying as they are. -/
def pushElem (a : JsArray) (v : JsValue) : JsArray × Option JsError :=
  if a.frozen then (a, some JsError.typeError)
  else if a.elems.length < arrayIndexLimit then
    ({ a with elems := a.elems ++ [some v] }, none)
  else (a, some JsError.rangeError)

/-- The call `a.pop()`.  On a frozen array it raises `TypeError`. -/
def popElem (a : JsArray) : JsArray × Option JsError :=
  if a.frozen then (a, some JsError.typeError)
  else ({ a with elems := a.elems.dropLast }, none)

/-- The call `Object.freeze(a)`. -/
def freezeArray (a : JsArray) : JsArray × Option JsError :=
  ({ a with frozen := true }, none)

/-- Operations of importing code on what it has imported.  Each acts through
an exported name.  Writes carry whether the code performing them is strict. -/
inductive ConsumerOp where
  | assign (name : ExportName) (v : JsValue) (strict : Bool)
  | setElem (name : ExportName) (i : Nat) (v : JsValue) (strict : Bool)
  | push (name : ExportName) (v : JsValue)
  | pop (name : ExportName)
  | setLength (name : ExportName) (n : Nat) (strict : Bool)
  | freeze (name : ExportName)
  deriving DecidableEq

/-- An operation on the value of an export.  When the binding holds a
reference, `f` is applied to the array object referred to and the heap is
updated.  When it holds a primitive nothing changes and the outcome is
`onPrim`; when it holds `undefined` nothing changes and the outcome is
`onUndef`. -/
def onExport (m : ModuleInstance) (name : ExportName)
    (onPrim onUndef : Option JsError) (f : JsArray → JsArray × Option JsError) :
    ModuleInstance × Option JsError :=
  match m.binding name with
  | .ref addr =>
    match m.heap[addr]? with
    | some a => ({ m with heap := m.heap.set addr (f a).1 }, (f a).2)
    | none => (m, none)
  | .undefined => (m, onUndef)
  | _ => (m, onPrim)

/-- One operation of importing code: the instance afterwards and the
exception raised, if any.
* `NAME = v`, or `ns.NAME = v` on the namespace object: an imported binding is
  read-only for the importer, so the write is refused.
* `NAME[i] = v` and `NAME.length = n`: on a primitive the write is refused.
* `NAME.push(v)` and `NAME.pop()`: a primitive has no such method.
* `Object.freeze(NAME)`: returns a primitive as it is. -/
def applyOp (m : ModuleInstance) : ConsumerOp → ModuleInstance × Option JsError
  | .assign _ _ strict => (m, refusedWrite strict)
  | .setElem name i v strict =>
    onExport m name (refusedWrite strict) (some JsError.typeError)
      (fun a => writeIndex a i v strict)
  | .push name v =>
    onExport m name (some JsError.typeError) (some JsError.typeError) (fun a => pushElem a v)
  | .pop name =>
    onExport m name (some JsError.typeError) (some JsError.typeError) popElem
  | .setLength name n strict =>
    onExport m name (refusedWrite strict) (some JsError.typeError)
      (fun a => writeLength a n strict)
  | .freeze name => onExport m name none none freezeArray

/-- A sequence of operations, each applied to the instance the previous one
left (an exception is caught and execution goes on). -/
def runOps (m : ModuleInstance) (ops : List ConsumerOp) : ModuleInstance :=
  ops.foldl (fun st op => (applyOp st op).1) m

/-- The part of the host that loads modules: the global variables, and the
registry entry for this module, empty until the first load. -/
structure Realm where
  globals : List (String × JsValue)
  registry : Option ModuleInstance
  deriving DecidableEq

/-- A realm in which the module has not been loaded yet. -/
def freshRealm (globals : List (String × JsValue)) : Realm :=
  { globals := globals, registry := none }

/-- A load of the module (a static or dynamic import).  The first load
evaluates the body and records the instance in the registry; every later load
returns the recorded instance. -/
def importModule (r : Realm) : ModuleInstance × Realm :=
  match r.registry with
  | some m => (m, r)
  | none => (evalModuleBody, { r with registry := some evalModuleBody })

/-- What happens in a realm: a load, or an operation of code that has loaded
the module. -/
inductive Action where
  | load
  | op (o : ConsumerOp)
  deriving DecidableEq

/-- One action.  An operation acts on the recorded instance; before the first
load no code holds an import, so there is nothing for it to act on. -/
def step (r : Realm) : Action → Realm
  | .load => (importModule r).2
  | .op o =>
    match r.registry with
    | some m => { r with registry := some (applyOp m o).1 }
    | none => r

/-- A sequence of actions. -/
def run (r : Realm) (acts : List Action) : Realm :=
  acts.foldl step r

/-! ## Shared lemmas -/

theorem API_ENDPOINTS_nodup : API_ENDPOINTS.Nodup := by
  decide

theorem API_ENDPOINTS_all_wellFormed :
    API_ENDPOINTS.all wellFormedRoute = true := by
  decide

theorem wellFormedRoute_spec (s : String) (h : wellFormedRoute s = true) :
    s ≠ "" ∧ startsWith s.toList "/v1".toList = true ∧
      (∀ c ∈ s.toList, isJsWhiteSpace c = false) ∧
      endsWithChar s.toList '/' = false := by
  unfold wellFormedRoute at h
  simp only [Bool.and_eq_true, Bool.not_eq_true', List.any_eq_false] at h
  obtain ⟨⟨⟨hne, hpre⟩, hws⟩, hend⟩ := h
  refine ⟨?_, hpre, ?_, hend⟩
  · intro hs
    subst hs
    simp at hne
  · intro c hc
    simpa using hws c hc


/-- No operation changes what an exported binding holds. -/
theorem applyOp_binding (m : ModuleInstance) (op : ConsumerOp) (name : ExportName) :
    (applyOp m op).1.binding name = m.binding name := by
  cases op <;> simp only [applyOp, onExport] <;> (repeat' split) <;>
    cases name <;> rfl

theorem runOps_binding (ops : List ConsumerOp) (m : ModuleInstance) (name : ExportName) :
    (runOps m ops).binding name = m.binding name := by
  induction ops generalizing m with
  | nil => rfl
  | cons op ops ih =>
    show (runOps (applyOp m op).1 ops).binding name = m.binding name
    rw [ih, applyOp_binding]

/-- An export that holds a primitive reads as that primitive, whatever the
heap is. -/
theorem read_of_binding (m : ModuleInstance) (name : ExportName)
    (h : m.binding name = evalModuleBody.binding name)
    (hn : name ≠ ExportName.API_ENDPOINTS) :
    m.read name = evalModuleBody.read name := by
  cases name <;>
    first
    | exact absurd rfl hn
    | (simp only [ModuleInstance.read, h]; rfl)

/-- The bindings of a recorded instance are those the body evaluation made. -/
def BindingsFromBody (r : Realm) : Prop :=
  ∀ m, r.registry = some m → ∀ name, m.binding name = evalModuleBody.binding name

theorem step_bindingsFromBody (r : Realm) (a : Action) (h : BindingsFromBody r) :
    BindingsFromBody (step r a) := by
  cases a with
  | load =>
    intro m hm name
    cases hr : r.registry with
    | none =>
      simp only [step, importModule, hr, Option.some.injEq] at hm
      subst hm
      rfl
    | some m0 =>
      simp only [step, importModule, hr] at hm
      exact h m (hr ▸ hm) name
  | op o =>
    intro m hm name
    cases hr : r.registry with
    | none =>
      simp [step, hr] at hm
    | some m0 =>
      simp only [step, hr, Option.some.injEq] at hm
      subst hm
      rw [applyOp_binding]
      exact h m0 hr name

theorem run_bindingsFromBody (acts : List Action) (r : Realm) (h : BindingsFromBody r) :
    BindingsFromBody (run r acts) := by
  induction acts generalizing r with
  | nil => exact h
  | cons a acts ih => exact ih (step r a) (step_bindingsFromBody r a h)

theorem importModule_binding (r : Realm) (h : BindingsFromBody r) (name : ExportName) :
    (importModule r).1.binding name = evalModuleBody.binding name := by
  cases hr : r.registry with
  | none => simp only [importModule, hr]
  | some m =>
    simp only [importModule, hr]
    exact h m hr name

/-- After any history that starts in a fresh realm, a load returns an
instance whose bindings are those the body evaluation made. -/
theorem import_after_history_binding (g : List (String × JsValue)) (acts : List Action)
    (name : ExportName) :
    (importModule (run (freshRealm g) acts)).1.binding name
      = evalModuleBody.binding name := by
  apply importModule_binding
  exact run_bindingsFromBody acts _ (fun _ hm => by simp [freshRealm] at hm)

theorem importModule_registry (r : Realm) :
    (importModule r).2.registry = some (importModule r).1 := by
  cases hr : r.registry <;> simp [importModule, hr]

theorem run_loads_of_loaded (k : Nat) (r : Realm) (m : ModuleInstance)
    (h : r.registry = some m) : run r (List.replicate k Action.load) = r := by
  induction k with
  | zero => rfl
  | succ k ih =>
    show run (step r Action.load) (List.replicate k Action.load) = r
    have hs : step r Action.load = r := by simp [step, importModule, h]
    rw [hs, ih]

theorem importModule_of_loaded (r : Realm) (m : ModuleInstance)
    (h : r.registry = some m) : importModule r = (m, r) := by
  simp [importModule, h]

/-! ## The claims -/

/-- C1: `API_ENDPOINTS` is exactly the twelve route strings of the source, in
source order; its length is 12 and its element at index 0 is
`/v1/chat/completions`. -/
theorem API_ENDPOINTS_is_the_twelve_routes :
    API_ENDPOINTS =
      [ "/v1/chat/completions", "/v1/responses", "/v1/messages", "/v1beta/models",
        "/v1/embeddings", "/v1/rerank", "/v1/images/generations", "/v1/images/edits",
        "/v1/images/variations", "/v1/audio/speech", "/v1/audio/transcriptions",
        "/v1/audio/translations" ] ∧
    API_ENDPOINTS.length = 12 ∧
    API_ENDPOINTS[0]? = some "/v1/chat/completions" :=
  ⟨rfl, rfl, rfl⟩

/-- C2: `API_ENDPOINTS` has no duplicate entries: the elements at two indices
`i < j` below the length are different strings. -/
theorem API_ENDPOINTS_entries_distinct (i j : Nat) (hij : i < j)
    (hj : j < API_ENDPOINTS.length) :
    API_ENDPOINTS.get ⟨i, lt_trans hij hj⟩ ≠ API_ENDPOINTS.get ⟨j, hj⟩ := by
  intro h
  have hfin := (List.Nodup.get_inj_iff API_ENDPOINTS_nodup).mp h
  have hval : i = j := congrArg Fin.val hfin
  omega

theorem API_ENDPOINTS_entries_distinct_witness :
    (0 : Nat) < 3 ∧ 3 < API_ENDPOINTS.length ∧
      API_ENDPOINTS.get ⟨0, by decide⟩ ≠ API_ENDPOINTS.get ⟨3, by decide⟩ :=
  ⟨by decide, by decide, API_ENDPOINTS_entries_distinct 0 3 (by decide) (by decide)⟩

/-- C3: `ITEMS_PER_PAGE` is the integer 10; it is strictly positive and has no
fractional part. -/
theorem ITEMS_PER_PAGE_is_ten_and_positive :
    ITEMS_PER_PAGE = 10 ∧ 0 < ITEMS_PER_PAGE ∧
      Int.fract ((ITEMS_PER_PAGE : Int) : ℚ) = 0 :=
  ⟨rfl, by decide, Int.fract_intCast _⟩

/-- C4: `TASK_ACTION_GENERATE` is the string `generate` and
`TASK_ACTION_TEXT_GENERATE` is the string `textGenerate`, character for
character. -/
theorem TASK_ACTION_labels_exact :
    TASK_ACTION_GENERATE = "generate" ∧
    TASK_ACTION_TEXT_GENERATE = "textGenerate" ∧
    TASK_ACTION_GENERATE.toList = ['g', 'e', 'n', 'e', 'r', 'a', 't', 'e'] ∧
    TASK_ACTION_TEXT_GENERATE.toList =
      ['t', 'e', 'x', 't', 'G', 'e', 'n', 'e', 'r', 'a', 't', 'e'] :=
  ⟨rfl, rfl, by decide, by decide⟩

/-- C5: `DEFAULT_ENDPOINT` is exactly the string `/api/ratio_config`. -/
theorem DEFAULT_ENDPOINT_exact : DEFAULT_ENDPOINT = "/api/ratio_config" :=
  rfl

/-- C6: `TABLE_COMPACT_MODES_KEY` is exactly the string
`table_compact_modes`. -/
theorem TABLE_COMPACT_MODES_KEY_exact :
    TABLE_COMPACT_MODES_KEY = "table_compact_modes" :=
  rfl


/-- C7, as stated, fails: importing code changes the contents of the exported
`API_ENDPOINTS` array.  On the freshly evaluated module the strict element
write `API_ENDPOINTS[0] = '/changed'` raises nothing and replaces the element
at index 0, and `API_ENDPOINTS.push('/v1/extra')` raises nothing and makes the
array thirteen elements long; either way the export no longer reads as it did
at load. -/
theorem API_ENDPOINTS_contents_can_be_changed :
    evalModuleBody.read .API_ENDPOINTS
      = .array (API_ENDPOINTS.map (fun s => some (JsValue.str s))) ∧
    (applyOp evalModuleBody (.setElem .API_ENDPOINTS 0 (.str "/changed") true)).2 = none ∧
    (applyOp evalModuleBody (.setElem .API_ENDPOINTS 0 (.str "/changed") true)).1.read
        .API_ENDPOINTS
      = .array (("/changed" :: API_ENDPOINTS.tail).map (fun s => some (JsValue.str s))) ∧
    (applyOp evalModuleBody (.setElem .API_ENDPOINTS 0 (.str "/changed") true)).1.read
        .API_ENDPOINTS
      ≠ evalModuleBody.read .API_ENDPOINTS ∧
    (applyOp evalModuleBody (.push .API_ENDPOINTS (.str "/v1/extra"))).2 = none ∧
    (applyOp evalModuleBody (.push .API_ENDPOINTS (.str "/v1/extra"))).1.read .API_ENDPOINTS
      = .array ((API_ENDPOINTS ++ ["/v1/extra"]).map (fun s => some (JsValue.str s))) ∧
    (applyOp evalModuleBody (.push .API_ENDPOINTS (.str "/v1/extra"))).1.read .API_ENDPOINTS
      ≠ evalModuleBody.read .API_ENDPOINTS := by
  refine ⟨rfl, rfl, rfl, ?_, rfl, rfl, ?_⟩ <;> decide

/-- C7, amended: every exported name resolves to a value fixed at module load,
and an operation of importing code changes none of the bindings.  Through any
sequence of operations `ITEMS_PER_PAGE`, `DEFAULT_ENDPOINT`,
`TABLE_COMPACT_MODES_KEY`, `TASK_ACTION_GENERATE` and
`TASK_ACTION_TEXT_GENERATE` read as the primitives bound at load, and
`API_ENDPOINTS` stays bound to the array object allocated at load.  That
object holds the twelve literals at load and is not frozen; nothing is said
about its contents afterwards. -/
theorem exported_bindings_fixed_at_load (ops : List ConsumerOp) :
    (runOps evalModuleBody ops).read .ITEMS_PER_PAGE
      = .prim (.num ⟨10, by decide⟩) ∧
    (runOps evalModuleBody ops).read .DEFAULT_ENDPOINT
      = .prim (.str "/api/ratio_config") ∧
    (runOps evalModuleBody ops).read .TABLE_COMPACT_MODES_KEY
      = .prim (.str "table_compact_modes") ∧
    (runOps evalModuleBody ops).read .TASK_ACTION_GENERATE = .prim (.str "generate") ∧
    (runOps evalModuleBody ops).read .TASK_ACTION_TEXT_GENERATE
      = .prim (.str "textGenerate") ∧
    (runOps evalModuleBody ops).API_ENDPOINTS = evalModuleBody.API_ENDPOINTS ∧
    evalModuleBody.read .API_ENDPOINTS
      = .array (API_ENDPOINTS.map (fun s => some (JsValue.str s))) ∧
    evalModuleBody.isFrozen .API_ENDPOINTS = false := by
  have hb := runOps_binding ops evalModuleBody
  refine ⟨?_, ?_, ?_, ?_, ?_, hb .API_ENDPOINTS, rfl, rfl⟩
  · exact read_of_binding _ _ (hb _) (by decide)
  · exact read_of_binding _ _ (hb _) (by decide)
  · exact read_of_binding _ _ (hb _) (by decide)
  · exact read_of_binding _ _ (hb _) (by decide)
  · exact read_of_binding _ _ (hb _) (by decide)

/-- C9, as stated, fails: two loads need not yield element-wise equal
`API_ENDPOINTS`.  The first load in a fresh realm sees the twelve literals.
After importing code has called `API_ENDPOINTS.push('/v1/extra')`, the next
load returns the recorded instance and sees thirteen elements. -/
theorem later_load_sees_changed_contents :
    (importModule (freshRealm [])).1.read .API_ENDPOINTS
      = .array (API_ENDPOINTS.map (fun s => some (JsValue.str s))) ∧
    (importModule
        (step (importModule (freshRealm [])).2
          (.op (.push .API_ENDPOINTS (.str "/v1/extra"))))).1.read .API_ENDPOINTS
      = .array ((API_ENDPOINTS ++ ["/v1/extra"]).map (fun s => some (JsValue.str s))) ∧
    (importModule
        (step (importModule (freshRealm [])).2
          (.op (.push .API_ENDPOINTS (.str "/v1/extra"))))).1.read .API_ENDPOINTS
      ≠ (importModule (freshRealm [])).1.read .API_ENDPOINTS := by
  refine ⟨rfl, rfl, ?_⟩
  decide

/-- C9, amended: loading is idempotent, and any two loads agree on the
bindings.  The first load yields the same instance whatever the globals of
the realm.  Once the module is loaded, a further load after any number of
loads returns the same instance and leaves the realm as it is.  Any two loads,
after whatever histories of loads and operations, yield equal
`ITEMS_PER_PAGE`, `DEFAULT_ENDPOINT`, `TABLE_COMPACT_MODES_KEY` and
task-action labels, and `API_ENDPOINTS` bound to the same array object.  When
only loads have happened the array reads as the twelve literals at each of
them; nothing is said about its contents once importing code has operated on
it. -/
theorem loads_agree_on_bindings (g₁ g₂ : List (String × JsValue))
    (acts₁ acts₂ : List Action) (r : Realm) (k : Nat) :
    (importModule (freshRealm g₁)).1 = (importModule (freshRealm g₂)).1 ∧
    (importModule (run (importModule r).2 (List.replicate k Action.load))
      = importModule r) ∧
    (importModule (run (freshRealm g₁) acts₁)).1.read .ITEMS_PER_PAGE
      = (importModule (run (freshRealm g₂) acts₂)).1.read .ITEMS_PER_PAGE ∧
    (importModule (run (freshRealm g₁) acts₁)).1.read .DEFAULT_ENDPOINT
      = (importModule (run (freshRealm g₂) acts₂)).1.read .DEFAULT_ENDPOINT ∧
    (importModule (run (freshRealm g₁) acts₁)).1.read .TABLE_COMPACT_MODES_KEY
      = (importModule (run (freshRealm g₂) acts₂)).1.read .TABLE_COMPACT_MODES_KEY ∧
    (importModule (run (freshRealm g₁) acts₁)).1.read .TASK_ACTION_GENERATE
      = (importModule (run (freshRealm g₂) acts₂)).1.read .TASK_ACTION_GENERATE ∧
    (importModule (run (freshRealm g₁) acts₁)).1.read .TASK_ACTION_TEXT_GENERATE
      = (importModule (run (freshRealm g₂) acts₂)).1.read .TASK_ACTION_TEXT_GENERATE ∧
    (importModule (run (freshRealm g₁) acts₁)).1.API_ENDPOINTS
      = (importModule (run (freshRealm g₂) acts₂)).1.API_ENDPOINTS ∧
    (importModule (run (freshRealm g₁) (List.replicate k Action.load))).1.read .API_ENDPOINTS
      = .array (API_ENDPOINTS.map (fun s => some (JsValue.str s))) := by
  have hreg := importModule_registry r
  have hidem : importModule (run (importModule r).2 (List.replicate k Action.load))
      = importModule r := by
    rw [run_loads_of_loaded k _ _ hreg, importModule_of_loaded _ _ hreg]
  have h₁ := import_after_history_binding g₁ acts₁
  have h₂ := import_after_history_binding g₂ acts₂
  have hread : ∀ name, name ≠ ExportName.API_ENDPOINTS →
      (importModule (run (freshRealm g₁) acts₁)).1.read name
        = (importModule (run (freshRealm g₂) acts₂)).1.read name := fun name hn =>
    (read_of_binding _ name (h₁ name) hn).trans (read_of_binding _ name (h₂ name) hn).symm
  refine ⟨rfl, hidem, hread _ (by decide), hread _ (by decide), hread _ (by decide),
    hread _ (by decide), hread _ (by decide),
    (h₁ .API_ENDPOINTS).trans (h₂ .API_ENDPOINTS).symm, ?_⟩
  cases k with
  | zero => rfl
  | succ k =>
    show (importModule (run (importModule (freshRealm g₁)).2
      (List.replicate k Action.load))).1.read .API_ENDPOINTS = _
    have hreg₁ := importModule_registry (freshRealm g₁)
    rw [run_loads_of_loaded k _ _ hreg₁, importModule_of_loaded _ _ hreg₁]
    rfl

/-- C10: every element of `API_ENDPOINTS` is a well-formed versioned route
path: at every index below the length the element is a non-empty string that
starts with `/v1`, contains no white-space character and does not end with
`/`. -/
theorem API_ENDPOINTS_routes_wellFormed (i : Nat) (h : i < API_ENDPOINTS.length) :
    API_ENDPOINTS.get ⟨i, h⟩ ≠ "" ∧
    startsWith (API_ENDPOINTS.get ⟨i, h⟩).toList "/v1".toList = true ∧
    (∀ c ∈ (API_ENDPOINTS.get ⟨i, h⟩).toList, isJsWhiteSpace c = false) ∧
    endsWithChar (API_ENDPOINTS.get ⟨i, h⟩).toList '/' = false := by
  apply wellFormedRoute_spec
  exact List.all_eq_true.mp API_ENDPOINTS_all_wellFormed _ (List.get_mem _ _ _)

theorem API_ENDPOINTS_routes_wellFormed_witness :
    3 < API_ENDPOINTS.length ∧
    API_ENDPOINTS.get ⟨3, by decide⟩ = "/v1beta/models" ∧
    API_ENDPOINTS.get ⟨3, by decide⟩ ≠ "" ∧
    startsWith (API_ENDPOINTS.get ⟨3, by decide⟩).toList "/v1".toList = true ∧
    (∀ c ∈ (API_ENDPOINTS.get ⟨3, by decide⟩).toList, isJsWhiteSpace c = false) ∧
    endsWithChar (API_ENDPOINTS.get ⟨3, by decide⟩).toList '/' = false :=
  ⟨by decide, rfl, API_ENDPOINTS_routes_wellFormed 3 (by decide)⟩

end CommonConstant
